import Mathlib

/-!
Verification of the tax-advisor scheduler tool functions (src/functions.py).

The embedding models the pure logic of the two calendar tools:

* `parse_relative_date` translates the relative-date resolver (functions.py,
  lines 65-129).  Python naive datetimes are modelled by `PyDateTime`:
  a proleptic-Gregorian ordinal (as in `datetime.toordinal`, ordinal 1 =
  0001-01-01) plus the time of day in microseconds.  `timedelta(days=n)`
  on a naive datetime shifts the ordinal only; `replace` overwrites fields.

* `createCalendarEvent` translates `create_calendar_event` (lines 211-380).
  The impure inputs are made explicit: `now` is a parameter, and
  `BookingEnv` carries the local UTC offset, whether the external calendar
  insert succeeds, and whether the confirmation-email send succeeds.  The
  outcome records the returned message, the success / email flags, and the
  event body submitted to the external store (`none` when no insert call
  is made).  The email MIME payload is not modelled: no claim depends on
  its contents, only on whether the send succeeded.

* `filterCalendarEvents` translates the filtering/rendering loop of
  `get_calendar_events` (lines 174-195), with the raw entries returned by
  the external store as an explicit input list.

Python string primitives used by the source (`str.lower`, `str.strip`,
`str.split`, `str.replace`, `int(...)`, f-string rendering of integers)
are embedded as structurally recursive char-list functions so that every
definition evaluates inside the kernel.
-/

/-! ## Python string primitives -/

def pyLowerChar (c : Char) : Char :=
  if 'A' ≤ c ∧ c ≤ 'Z' then Char.ofNat (c.toNat + 32) else c

/-- Model of Python `str.lower` (ASCII range; the tokens involved are ASCII). -/
def pyLower (s : String) : String :=
  String.mk (s.data.map pyLowerChar)

def pySpaceChar (c : Char) : Bool :=
  c = ' ' || c = '\t' || c = '\n' || c = '\r' || c = '\x0b' || c = '\x0c'

/-- Model of Python `str.strip()` with no argument: drop whitespace at both ends. -/
def pyStrip (s : String) : String :=
  String.mk (((s.data.dropWhile pySpaceChar).reverse.dropWhile pySpaceChar).reverse)

def splitChars (sep : Char) : List Char → List Char → List (List Char)
  | [], acc => [acc.reverse]
  | c :: rest, acc =>
      if c = sep then acc.reverse :: splitChars sep rest []
      else splitChars sep rest (c :: acc)

/-- Model of Python `s.split(sep)` for a one-character separator. -/
def pySplit (s : String) (sep : Char) : List String :=
  (splitChars sep s.data []).map String.mk

def digitChar (n : Nat) : Char := Char.ofNat (48 + n)

def natRevDigits : Nat → Nat → List Char
  | 0, _ => []
  | fuel + 1, n => if n = 0 then [] else digitChar (n % 10) :: natRevDigits fuel (n / 10)

/-- Decimal rendering of a natural number, as Python f-strings print it. -/
def natToStr (n : Nat) : String :=
  if n = 0 then "0" else String.mk (natRevDigits n n).reverse

/-- Decimal rendering of an integer, as Python f-strings print it. -/
def intToStr (i : Int) : String :=
  if i < 0 then "-" ++ natToStr i.natAbs else natToStr i.natAbs

/-- Model of `s.replace("Z", "+00:00")` (the pattern is a single character). -/
def replaceZ (s : String) : String :=
  String.mk (List.flatten (s.data.map fun c =>
    if c = 'Z' then ['+', '0', '0', ':', '0', '0'] else [c]))

/-- Model of Python `int(str)`: optional surrounding whitespace, optional
sign, then decimal digits where a single underscore may stand between two
digits.  `none` models the `ValueError` raised on any other input. -/
def pyDigitsCore : List Char → Nat → Option Nat
  | [], acc => some acc
  | '_' :: c :: rest, acc =>
      if c.isDigit then pyDigitsCore rest (acc * 10 + (c.toNat - 48)) else none
  | c :: rest, acc =>
      if c.isDigit then pyDigitsCore rest (acc * 10 + (c.toNat - 48)) else none

def pyDigits : List Char → Option Nat
  | [] => none
  | c :: rest => if c.isDigit then pyDigitsCore rest (c.toNat - 48) else none

def pyInt (s : String) : Option Int :=
  match (pyStrip s).data with
  | '+' :: rest => (pyDigits rest).map (fun n => (n : Int))
  | '-' :: rest => (pyDigits rest).map (fun n => -(n : Int))
  | cs => (pyDigits cs).map (fun n => (n : Int))

/-! ## Naive datetimes -/

/-- A Python naive `datetime`: proleptic-Gregorian ordinal of the calendar
day (`datetime.toordinal`, ordinal 1 = 0001-01-01) and the time of day in
microseconds. -/
structure PyDateTime where
  ord : Int
  tod : Nat
deriving DecidableEq, Repr

/-- `dt + timedelta(days := n)` on a naive datetime: the time of day is kept. -/
def addDays (d : PyDateTime) (n : Int) : PyDateTime :=
  { ord := d.ord + n, tod := d.tod }

/-- `dt + timedelta` for an arbitrary amount of microseconds, with day carry. -/
def addMicros (d : PyDateTime) (n : Int) : PyDateTime :=
  let t : Int := d.ord * 86400000000 + (d.tod : Int) + n
  { ord := t.ediv 86400000000, tod := (t.emod 86400000000).toNat }

/-- `datetime.weekday()`: 0 = Monday .. 6 = Sunday.  Ordinal 1 (0001-01-01)
is a Monday. -/
def pyWeekday (d : PyDateTime) : Int :=
  (d.ord - 1).emod 7

/-- Total microseconds since the epoch of ordinal 0; gives the instant order. -/
def toMicros (d : PyDateTime) : Int :=
  d.ord * 86400000000 + (d.tod : Int)

/-! ## parse_relative_date (functions.py lines 65-129) -/

/-- One weekday branch of the source (e.g. lines 86-90): `days_ahead =
idx - now.weekday(); if days_ahead <= 0: days_ahead += 7;
target_date = now + timedelta(days=days_ahead)`. -/
def weekdayTarget (now : PyDateTime) (idx : Int) : PyDateTime :=
  let days_ahead := idx - pyWeekday now
  let days_ahead := if days_ahead ≤ 0 then days_ahead + 7 else days_ahead
  addDays now days_ahead

/-- The token dispatch of `parse_relative_date`, applied to the already
lowercased and stripped description (source lines 77-123). -/
def resolveToken (date_lower : String) (now : PyDateTime) : PyDateTime :=
  if date_lower = "today" ∨ date_lower = "now" then now
  else if date_lower = "tomorrow" then addDays now 1
  else if date_lower = "yesterday" then addDays now (-1)
  else if date_lower = "next week" ∨ date_lower = "nextweek" then addDays now 7
  else if date_lower = "next monday" ∨ date_lower = "monday" then weekdayTarget now 0
  else if date_lower = "next tuesday" ∨ date_lower = "tuesday" then weekdayTarget now 1
  else if date_lower = "next wednesday" ∨ date_lower = "wednesday" then weekdayTarget now 2
  else if date_lower = "next thursday" ∨ date_lower = "thursday" then weekdayTarget now 3
  else if date_lower = "next friday" ∨ date_lower = "friday" then weekdayTarget now 4
  else if date_lower = "next saturday" ∨ date_lower = "saturday" then weekdayTarget now 5
  else if date_lower = "next sunday" ∨ date_lower = "sunday" then weekdayTarget now 6
  else now

/-- `parse_relative_date(date_description)` with the impure `datetime.now()`
made an explicit parameter.  Returns the `(day_start, day_end)` pair of
source lines 125-129. -/
def parse_relative_date (date_description : String) (now : PyDateTime) :
    PyDateTime × PyDateTime :=
  let target := resolveToken (pyStrip (pyLower date_description)) now
  let day_start : PyDateTime := { ord := target.ord, tod := 0 }
  (day_start, addDays day_start 1)

/-- All tokens matched by some branch of the source dispatch. -/
def recognizedTokens : List String :=
  ["today", "now", "tomorrow", "yesterday", "next week", "nextweek",
   "next monday", "monday", "next tuesday", "tuesday",
   "next wednesday", "wednesday", "next thursday", "thursday",
   "next friday", "friday", "next saturday", "saturday",
   "next sunday", "sunday"]

/-- The bare weekday tokens with their Python weekday index. -/
def bareWeekdayTokens : List (String × Int) :=
  [("monday", 0), ("tuesday", 1), ("wednesday", 2), ("thursday", 3),
   ("friday", 4), ("saturday", 5), ("sunday", 6)]

def weekdayNames : List String :=
  ["monday", "tuesday", "wednesday", "thursday", "friday", "saturday", "sunday"]

/-! ## Calendar rendering (strftime fragments used by the source) -/

/-- Civil date from days since 1970-01-01 (standard proleptic-Gregorian
conversion, returning (year, month, day)). -/
def civilFromDays (z0 : Int) : Int × Int × Int :=
  let z := z0 + 719468
  let era := z.ediv 146097
  let doe := z - era * 146097
  let yoe := (doe - doe.ediv 1460 + doe.ediv 36524 - doe.ediv 146096).ediv 365
  let y := yoe + era * 400
  let doy := doe - (365 * yoe + yoe.ediv 4 - yoe.ediv 100)
  let mp := (5 * doy + 2).ediv 153
  let d := doy - (153 * mp + 2).ediv 5 + 1
  let m := mp + (if mp < 10 then 3 else -9)
  (y + (if m ≤ 2 then 1 else 0), m, d)

/-- Civil date from a Python ordinal (ordinal 719163 = 1970-01-01). -/
def civilFromOrd (o : Int) : Int × Int × Int :=
  civilFromDays (o - 719163)

def todHour (d : PyDateTime) : Nat := d.tod / 3600000000

def todMinute (d : PyDateTime) : Nat := d.tod / 60000000 % 60

def todSecond (d : PyDateTime) : Nat := d.tod / 1000000 % 60

/-- Two-digit zero-padded decimal (strftime `%d`, `%m`, `%H`, `%M`, `%S`, `%I`). -/
def pad2 (n : Int) : String :=
  String.mk [digitChar (n.natAbs / 10 % 10), digitChar (n.natAbs % 10)]

/-- Four-digit zero-padded decimal (strftime `%Y` for the years datetime allows). -/
def pad4 (n : Int) : String :=
  String.mk [digitChar (n.natAbs / 1000 % 10), digitChar (n.natAbs / 100 % 10),
             digitChar (n.natAbs / 10 % 10), digitChar (n.natAbs % 10)]

/-- strftime `%B`. -/
def monthName : Int → String
  | 1 => "January" | 2 => "February" | 3 => "March" | 4 => "April"
  | 5 => "May" | 6 => "June" | 7 => "July" | 8 => "August"
  | 9 => "September" | 10 => "October" | 11 => "November" | 12 => "December"
  | _ => ""

/-- strftime `%A`, indexed by `datetime.weekday()`. -/
def weekdayName : Int → String
  | 0 => "Monday" | 1 => "Tuesday" | 2 => "Wednesday" | 3 => "Thursday"
  | 4 => "Friday" | 5 => "Saturday" | 6 => "Sunday"
  | _ => ""

/-- strftime `%Y-%m-%dT%H:%M:%S` (source lines 264-265). -/
def fmtYmdHMS (d : PyDateTime) : String :=
  let c := civilFromOrd d.ord
  pad4 c.1 ++ "-" ++ pad2 c.2.1 ++ "-" ++ pad2 c.2.2 ++ "T" ++
    pad2 (todHour d : Int) ++ ":" ++ pad2 (todMinute d : Int) ++ ":" ++
    pad2 (todSecond d : Int)

/-- strftime `%I:%M %p` (12-hour clock, zero-padded, AM/PM). -/
def fmt12 (d : PyDateTime) : String :=
  let h := todHour d
  pad2 (((h + 11) % 12 + 1 : Nat) : Int) ++ ":" ++ pad2 (todMinute d : Int) ++
    " " ++ (if h < 12 then "AM" else "PM")

/-- strftime `%A, %B %d` (used in the booking success message, line 366). -/
def fmtWeekdayMonthDay (d : PyDateTime) : String :=
  weekdayName (pyWeekday d) ++ ", " ++ monthName (civilFromOrd d.ord).2.1 ++
    " " ++ pad2 (civilFromOrd d.ord).2.2

/-! ## create_calendar_event (functions.py lines 211-380) -/

/-- The `hour, minute = map(int, start_time.split(":"))` step (line 242):
`none` models the `ValueError` raised on a wrong number of fields or a
non-numeric field. -/
def pyParseHM (s : String) : Option (Int × Int) :=
  match pySplit s ':' with
  | [a, b] =>
      match pyInt a, pyInt b with
      | some h, some m => some (h, m)
      | _, _ => none
  | _ => none

/-- The `day_start.replace(hour=hour, minute=minute)` step (line 243):
`datetime.replace` raises `ValueError` when the hour is outside 0..23 or
the minute outside 0..59.  `day_start` has second and microsecond 0. -/
def replaceHM (d : PyDateTime) (hour minute : Int) : Option PyDateTime :=
  if 0 ≤ hour ∧ hour ≤ 23 ∧ 0 ≤ minute ∧ minute ≤ 59 then
    some { ord := d.ord, tod := ((hour * 3600 + minute * 60) * 1000000).toNat }
  else none

/-- The timezone label computation of source lines 253-261:
`offset_hours = int(local_offset.total_seconds() / 3600)` (float `int()`
truncates toward zero, which on whole-second offsets is `Int.tdiv`),
then `Etc/GMT-{h}` for nonnegative `h` and `Etc/GMT+{abs(h)}` otherwise. -/
def localTzStr (offsetSeconds : Int) : String :=
  let offset_hours := offsetSeconds.tdiv 3600
  if 0 ≤ offset_hours then "Etc/GMT-" ++ intToStr offset_hours
  else "Etc/GMT+" ++ intToStr (-offset_hours)

/-- The tool arguments of `create_calendar_event` after the defaulting of
source lines 227-232. -/
structure BookingArgs where
  title : String
  date_description : String
  start_time : String
  duration_minutes : Int
  description : String
  customer_email : String
deriving DecidableEq, Repr

/-- The impure surroundings of one booking call: the local UTC offset in
seconds, whether the external calendar insert succeeds (and the error text
`str(e)` when it raises), and whether the Gmail send succeeds. -/
structure BookingEnv where
  offsetSeconds : Int
  insertOk : Bool
  insertErr : String
  emailOk : Bool
deriving DecidableEq, Repr

/-- The event body submitted to the external calendar store (lines 274-285). -/
structure EventBody where
  summary : String
  description : String
  startDateTime : String
  startTimeZone : String
  endDateTime : String
  endTimeZone : String
deriving DecidableEq, Repr

/-- The observable outcome of one `create_calendar_event` call: the returned
message, whether the normal success return was reached, the `email_sent`
flag, whether an email send was attempted, and the body handed to the
external insert call (`none` when no insert call was made). -/
structure BookingOutcome where
  message : String
  success : Bool
  notificationSent : Bool
  emailAttempted : Bool
  submitted : Option EventBody
deriving DecidableEq, Repr

/-- The terminal failure of source lines 245-249. -/
def invalidTimeMsg (start_time : String) : String :=
  "Invalid time format: " ++ start_time ++
    ". Please use HH:MM format (e.g., \x2714:00\x27)"

def invalidOutcome (start_time : String) : BookingOutcome :=
  { message := invalidTimeMsg start_time, success := false,
    notificationSent := false, emailAttempted := false, submitted := none }

/-- The success message of source lines 365-368, before the optional
email-confirmation suffix. -/
def successBase (title : String) (event_start event_end : PyDateTime) : String :=
  "Event created successfully: \x27" ++ title ++ "\x27 on " ++
    fmtWeekdayMonthDay event_start ++ " from " ++ fmt12 event_start ++
    " to " ++ fmt12 event_end

/-- `create_calendar_event` (source lines 211-380) with the impure parts
explicit.  The interim TTS acknowledgment and the email MIME payload are
not observable by any claim and are not modelled. -/
def createCalendarEvent (args : BookingArgs) (env : BookingEnv)
    (now : PyDateTime) : BookingOutcome :=
  let day_start := (parse_relative_date args.date_description now).1
  match pyParseHM args.start_time with
  | none => invalidOutcome args.start_time
  | some (hour, minute) =>
      match replaceHM day_start hour minute with
      | none => invalidOutcome args.start_time
      | some event_start =>
          let event_end := addMicros event_start (args.duration_minutes * 60000000)
          let local_tz_str := localTzStr env.offsetSeconds
          let body : EventBody :=
            { summary := args.title, description := args.description,
              startDateTime := fmtYmdHMS event_start,
              startTimeZone := local_tz_str,
              endDateTime := fmtYmdHMS event_end,
              endTimeZone := local_tz_str }
          if env.insertOk then
            let email_sent := (args.customer_email != "") && env.emailOk
            let base := successBase args.title event_start event_end
            { message :=
                if email_sent then
                  base ++ ". Confirmation email sent to " ++ args.customer_email
                else base,
              success := true, notificationSent := email_sent,
              emailAttempted := args.customer_email != "",
              submitted := some body }
          else
            { message := "Error creating calendar event: " ++ env.insertErr,
              success := false, notificationSent := false,
              emailAttempted := false, submitted := some body }

/-- The start instant built at source line 243, for use in statements. -/
def eventStartAt (args : BookingArgs) (now : PyDateTime) (hour minute : Int) :
    PyDateTime :=
  { ord := (parse_relative_date args.date_description now).1.ord,
    tod := ((hour * 3600 + minute * 60) * 1000000).toNat }

/-- The end instant built at source line 244, for use in statements. -/
def eventEndAt (args : BookingArgs) (now : PyDateTime) (hour minute : Int) :
    PyDateTime :=
  addMicros (eventStartAt args now hour minute) (args.duration_minutes * 60000000)

/-! ## get_calendar_events filtering (functions.py lines 174-195) -/

/-- One raw entry from the external store: the optional `dateTime` values
under `start` and `end`, and the optional `summary`. -/
structure RawEvent where
  startDT : Option String
  endDT : Option String
  summary : Option String
deriving DecidableEq, Repr

/-- One rendered entry of the returned list (lines 191-195). -/
structure ShownEvent where
  summary : String
  start_time : String
  end_time : String
deriving DecidableEq, Repr

/-- Python truthiness of `event.get(...).get("dateTime")`: present and
non-empty (line 182). -/
def pyTruthy : Option String → Bool
  | none => false
  | some s => !s.data.isEmpty

def keepEvent (e : RawEvent) : Bool :=
  pyTruthy e.startDT && pyTruthy e.endDT

def digit2 (a b : Char) : Nat :=
  (a.toNat - 48) * 10 + (b.toNat - 48)

/-- A `±HH:MM` UTC-offset tail, in minutes. -/
def parseOffChars : List Char → Option Int
  | ['+', a, b, ':', c, d] =>
      if a.isDigit && b.isDigit && c.isDigit && d.isDigit &&
          digit2 a b < 24 && digit2 c d < 60 then
        some ((digit2 a b * 60 + digit2 c d : Nat) : Int)
      else none
  | ['-', a, b, ':', c, d] =>
      if a.isDigit && b.isDigit && c.isDigit && d.isDigit &&
          digit2 a b < 24 && digit2 c d < 60 then
        some (-((digit2 a b * 60 + digit2 c d : Nat) : Int))
      else none
  | _ => none

def tzTail : List Char → Option (Option Int)
  | [] => some none
  | cs => (parseOffChars cs).map some

def fracTail (cs : List Char) : Option (Option Int) :=
  let digs := cs.takeWhile Char.isDigit
  let rest := cs.dropWhile Char.isDigit
  if 1 ≤ digs.length && digs.length ≤ 6 then tzTail rest else none

def afterMinuteTail : List Char → Option (Option Int)
  | ':' :: a :: b :: rest =>
      if a.isDigit && b.isDigit && digit2 a b ≤ 59 then
        match rest with
        | '.' :: cs => fracTail cs
        | cs => tzTail cs
      else none
  | cs => tzTail cs

def parseTimeChars : List Char → Option (Nat × Option Int)
  | a :: b :: ':' :: c :: d :: rest =>
      if a.isDigit && b.isDigit && c.isDigit && d.isDigit &&
          digit2 a b ≤ 23 && digit2 c d ≤ 59 then
        (afterMinuteTail rest).map (fun off => (digit2 a b * 60 + digit2 c d, off))
      else none
  | _ => none

/-- Model of `datetime.fromisoformat` restricted to the projection the
source renders: the minutes of day and the optional UTC offset.  `none`
models the `ValueError` on a malformed string. -/
def parseIsoChars : List Char → Option (Nat × Option Int)
  | y1 :: y2 :: y3 :: y4 :: '-' :: a :: b :: '-' :: c :: d :: rest =>
      if y1.isDigit && y2.isDigit && y3.isDigit && y4.isDigit &&
          a.isDigit && b.isDigit && c.isDigit && d.isDigit &&
          1 ≤ digit2 a b && digit2 a b ≤ 12 && 1 ≤ digit2 c d && digit2 c d ≤ 31 then
        match rest with
        | [] => some (0, none)
        | 'T' :: t => parseTimeChars t
        | _ => none
      else none
  | _ => none

/-- strftime `%I:%M %p` on a minutes-of-day value. -/
def fmtMin12 (mins : Int) : String :=
  let h := mins.ediv 60
  let m := mins.emod 60
  pad2 ((h + 11).emod 12 + 1) ++ ":" ++ pad2 m ++ " " ++
    (if h < 12 then "AM" else "PM")

/-- Lines 184-189: `fromisoformat(s.replace("Z", "+00:00")).astimezone()`
then strftime `%I:%M %p`.  A naive parsed value is already local; an aware
one is shifted from its offset to the local offset (in minutes).  Only the
time of day is rendered, so the shift is taken modulo one day. -/
def render12h (locOffMinutes : Int) (s : String) : Option String :=
  (parseIsoChars (replaceZ s).data).map fun p =>
    let mins : Int :=
      match p.2 with
      | none => (p.1 : Int)
      | some off => ((p.1 : Int) - off + locOffMinutes).emod 1440
    fmtMin12 mins

/-- The filtering/rendering loop of `get_calendar_events` (lines 174-195).
A `ValueError` from `fromisoformat` propagates to the handler of lines
204-208, modelled by `Except.error`. -/
def filterCalendarEvents (locOffMinutes : Int) :
    List RawEvent → Except String (List ShownEvent)
  | [] => .ok []
  | e :: rest =>
      if keepEvent e then
        match render12h locOffMinutes (e.startDT.getD ""),
            render12h locOffMinutes (e.endDT.getD "") with
        | some st, some et =>
            (filterCalendarEvents locOffMinutes rest).map
              (fun tl =>
                { summary := e.summary.getD "Untitled Event",
                  start_time := st, end_time := et } :: tl)
        | _, _ => .error "Error retrieving calendar events: Invalid isoformat string"
      else filterCalendarEvents locOffMinutes rest

/-- How one kept entry is rendered (lines 180-195), for use in statements. -/
def renderKept (locOffMinutes : Int) (e : RawEvent) : ShownEvent :=
  { summary := e.summary.getD "Untitled Event",
    start_time := (render12h locOffMinutes (e.startDT.getD "")).getD "",
    end_time := (render12h locOffMinutes (e.endDT.getD "")).getD "" }

/-! ## Substring occurrence (for message-content statements) -/

def listStartsWith : List Char → List Char → Bool
  | [], _ => true
  | _ :: _, [] => false
  | a :: as, b :: bs => a == b && listStartsWith as bs

def listOccurs (pat : List Char) : List Char → Bool
  | [] => pat.isEmpty
  | b :: bs => listStartsWith pat (b :: bs) || listOccurs pat bs

/-- `pat in s` of Python: `pat` occurs as a contiguous substring of `s`. -/
def strContains (s pat : String) : Bool :=
  listOccurs pat.data s.data

/-! ## Definitions following the claim wording (for comparison with the code) -/

/-- Follows the claim wording of C9: the UTC offset truncated toward zero
to whole hours (sign times the floor of the absolute number of hours). -/
def specTruncHours (offsetSeconds : Int) : Int :=
  offsetSeconds.sign * ((offsetSeconds.natAbs / 3600 : Nat) : Int)

/-- Follows the claim wording of C9: label `Etc/GMT-h` when `h ≥ 0`,
`Etc/GMT+|h|` when `h < 0`. -/
def specGmtLabel (h : Int) : String :=
  if 0 ≤ h then "Etc/GMT-" ++ intToStr h else "Etc/GMT+" ++ intToStr (-h)

/-! ## Sanity anchors for the embedding -/

example : civilFromOrd 719163 = (1970, 1, 1) := by decide

example : civilFromOrd 730180 = (2000, 3, 1) := by decide

example : civilFromOrd 738886 = (2024, 1, 1) := by decide

example : pyWeekday ⟨738886, 0⟩ = 0 := by decide

example : pyParseHM "14:00" = some (14, 0) := by decide

example : pyParseHM "9am" = none := by decide

example : pyParseHM "25:00" = some (25, 0) := by decide

example : localTzStr 7200 = "Etc/GMT-2" := by decide

example : localTzStr (-19800) = "Etc/GMT+5" := by decide

example : render12h 60 "2025-03-04T14:30:00Z" = some "03:30 PM" := by decide

/-! ## Helper lemmas -/

lemma pyWeekday_nonneg (d : PyDateTime) : 0 ≤ pyWeekday d :=
  Int.emod_nonneg _ (by norm_num)

lemma pyWeekday_lt (d : PyDateTime) : pyWeekday d < 7 :=
  Int.emod_lt_of_pos _ (by norm_num)

lemma emod7_char (x r : Int) (h0 : 0 ≤ r) (h7 : r < 7) :
    x % 7 = r ↔ ∃ q : Int, x = 7 * q + r := by
  constructor
  · intro h
    exact ⟨x / 7, by omega⟩
  · rintro ⟨q, rfl⟩
    omega

lemma weekdayTarget_core (now : PyDateTime) (idx : Int)
    (h0 : 0 ≤ idx) (h7 : idx < 7) :
    0 < (weekdayTarget now idx).ord - now.ord ∧
    (pyWeekday now + ((weekdayTarget now idx).ord - now.ord)).emod 7 = idx ∧
    (∀ e : Int, 0 < e → (pyWeekday now + e).emod 7 = idx →
      (weekdayTarget now idx).ord - now.ord ≤ e) ∧
    (pyWeekday now = idx → (weekdayTarget now idx).ord = now.ord + 7) := by
  have hw0 : 0 ≤ pyWeekday now := pyWeekday_nonneg now
  have hw7 : pyWeekday now < 7 := pyWeekday_lt now
  simp only [weekdayTarget, addDays]
  by_cases hc : idx - pyWeekday now ≤ 0
  · simp only [if_pos hc]
    refine ⟨by omega, ?_, ?_, by omega⟩
    · exact (emod7_char _ idx h0 h7).mpr ⟨1, by ring⟩
    · intro e he hmod
      obtain ⟨q, hq⟩ := (emod7_char _ idx h0 h7).mp hmod
      omega
  · simp only [if_neg hc]
    refine ⟨by omega, ?_, ?_, by omega⟩
    · exact (emod7_char _ idx h0 h7).mpr ⟨0, by ring⟩
    · intro e he hmod
      obtain ⟨q, hq⟩ := (emod7_char _ idx h0 h7).mp hmod
      omega

lemma bare_weekday_case (tok : String) (idx : Int) (now : PyDateTime)
    (h0 : 0 ≤ idx) (h7 : idx < 7)
    (heq : parse_relative_date tok now =
      ({ ord := (weekdayTarget now idx).ord, tod := 0 },
       { ord := (weekdayTarget now idx).ord + 1, tod := 0 })) :
    0 < (parse_relative_date tok now).1.ord - now.ord ∧
    (pyWeekday now + ((parse_relative_date tok now).1.ord - now.ord)).emod 7 = idx ∧
    (∀ e : Int, 0 < e → (pyWeekday now + e).emod 7 = idx →
      (parse_relative_date tok now).1.ord - now.ord ≤ e) ∧
    (pyWeekday now = idx →
      (parse_relative_date tok now).1.ord = now.ord + 7 ∧
      (parse_relative_date tok now).1.tod = 0 ∧
      (parse_relative_date tok now).2.ord = now.ord + 8 ∧
      (parse_relative_date tok now).2.tod = 0) := by
  rw [heq]
  obtain ⟨ha, hb, hc, hd⟩ := weekdayTarget_core now idx h0 h7
  refine ⟨ha, hb, hc, fun h => ?_⟩
  have h7d := hd h
  refine ⟨h7d, rfl, ?_, rfl⟩
  show (weekdayTarget now idx).ord + 1 = now.ord + 8
  omega

/-- The statement of claim C1 for one token/index pair and one `now`. -/
def C1Body (p : String × Int) (now : PyDateTime) : Prop :=
  0 < (parse_relative_date p.1 now).1.ord - now.ord ∧
  (pyWeekday now + ((parse_relative_date p.1 now).1.ord - now.ord)).emod 7 = p.2 ∧
  (∀ e : Int, 0 < e → (pyWeekday now + e).emod 7 = p.2 →
    (parse_relative_date p.1 now).1.ord - now.ord ≤ e) ∧
  (pyWeekday now = p.2 →
    (parse_relative_date p.1 now).1.ord = now.ord + 7 ∧
    (parse_relative_date p.1 now).1.tod = 0 ∧
    (parse_relative_date p.1 now).2.ord = now.ord + 8 ∧
    (parse_relative_date p.1 now).2.tod = 0)

/-! ## Claim theorems -/

/-- Claim C1: for every bare weekday token W and every now, the resolved
day starts a strictly positive number of days ahead, that offset is the
smallest strictly positive `d` with `(now.weekday() + d) mod 7` equal to
the index of W, and when now already falls on W the returned window is the
one exactly 7 days ahead (midnight to midnight), never the current day. -/
theorem claim_C1 (p : String × Int) (hp : p ∈ bareWeekdayTokens)
    (now : PyDateTime) : C1Body p now := by
  fin_cases hp <;>
    exact bare_weekday_case _ _ now (by norm_num) (by norm_num) rfl

theorem claim_C1_witness :
    (("monday", (0 : Int)) ∈ bareWeekdayTokens) ∧
      C1Body ("monday", (0 : Int)) ⟨738886, 0⟩ :=
  ⟨by decide, claim_C1 ("monday", 0) (by decide) ⟨738886, 0⟩⟩

/-- Claim C2: for every weekday name W and every now, the token
`"next " ++ W` and the bare token W produce identical day windows. -/
theorem claim_C2 (w : String) (hw : w ∈ weekdayNames) (now : PyDateTime) :
    parse_relative_date ("next " ++ w) now = parse_relative_date w now := by
  fin_cases hw <;> rfl

theorem claim_C2_witness :
    ("friday" ∈ weekdayNames) ∧
      parse_relative_date "next friday" ⟨738886, 360000⟩ =
        parse_relative_date "friday" ⟨738886, 360000⟩ :=
  ⟨by decide, claim_C2 "friday" (by decide) ⟨738886, 360000⟩⟩

/-- Claim C3: for every input string and every now, the returned pair
satisfies start < end, end minus start is exactly 24 hours, and start is
the local midnight (time of day 00:00:00.000000) of the resolved day. -/
theorem claim_C3 (s : String) (now : PyDateTime) :
    (parse_relative_date s now).1.tod = 0 ∧
    (parse_relative_date s now).1.ord =
      (resolveToken (pyStrip (pyLower s)) now).ord ∧
    toMicros (parse_relative_date s now).1 < toMicros (parse_relative_date s now).2 ∧
    toMicros (parse_relative_date s now).2 - toMicros (parse_relative_date s now).1 =
      86400000000 := by
  refine ⟨rfl, rfl, ?_, ?_⟩ <;>
    simp only [parse_relative_date, toMicros, addDays] <;> omega

/-- Claim C6: every token whose lowercased, stripped form is not one of the
recognized ones resolves exactly like "today"; the resolver is total (in
the model it is a function, so it never raises and never rejects). -/
theorem claim_C6 (s : String) (now : PyDateTime)
    (h : pyStrip (pyLower s) ∉ recognizedTokens) :
    parse_relative_date s now = parse_relative_date "today" now := by
  simp only [recognizedTokens, List.mem_cons, List.not_mem_nil, or_false,
    not_or] at h
  obtain ⟨h1, h2, h3, h4, h5, h6, h7, h8, h9, h10,
    h11, h12, h13, h14, h15, h16, h17, h18, h19, h20⟩ := h
  have hrhs : parse_relative_date "today" now =
      ({ ord := now.ord, tod := 0 }, { ord := now.ord + 1, tod := 0 }) := rfl
  rw [hrhs]
  simp only [parse_relative_date, resolveToken, h1, h2, h3, h4, h5, h6, h7,
    h8, h9, h10, h11, h12, h13, h14, h15, h16, h17, h18, h19, h20, or_self,
    if_false, ite_false, addDays]

theorem claim_C6_witness :
    (pyStrip (pyLower "blorp") ∉ recognizedTokens) ∧
      parse_relative_date "blorp" ⟨738886, 55⟩ =
        parse_relative_date "today" ⟨738886, 55⟩ :=
  ⟨by decide, claim_C6 "blorp" ⟨738886, 55⟩ (by decide)⟩

/-! ## The booking path after a successful time parse -/

/-- The event body handed to the external insert call when the start time
parses and is in range. -/
def submitBody (args : BookingArgs) (env : BookingEnv) (now : PyDateTime)
    (hour minute : Int) : EventBody :=
  { summary := args.title, description := args.description,
    startDateTime := fmtYmdHMS (eventStartAt args now hour minute),
    startTimeZone := localTzStr env.offsetSeconds,
    endDateTime := fmtYmdHMS (eventEndAt args now hour minute),
    endTimeZone := localTzStr env.offsetSeconds }

lemma replaceHM_in_range (d : PyDateTime) (hour minute : Int)
    (h1 : 0 ≤ hour) (h2 : hour ≤ 23) (h3 : 0 ≤ minute) (h4 : minute ≤ 59) :
    replaceHM d hour minute =
      some { ord := d.ord, tod := ((hour * 3600 + minute * 60) * 1000000).toNat } := by
  unfold replaceHM
  rw [if_pos ⟨h1, h2, h3, h4⟩]

lemma createCalendarEvent_submit (args : BookingArgs) (env : BookingEnv)
    (now : PyDateTime) (hour minute : Int)
    (hp : pyParseHM args.start_time = some (hour, minute))
    (h1 : 0 ≤ hour) (h2 : hour ≤ 23) (h3 : 0 ≤ minute) (h4 : minute ≤ 59) :
    createCalendarEvent args env now =
      if env.insertOk then
        { message :=
            if (args.customer_email != "") && env.emailOk then
              successBase args.title (eventStartAt args now hour minute)
                  (eventEndAt args now hour minute) ++
                ". Confirmation email sent to " ++ args.customer_email
            else
              successBase args.title (eventStartAt args now hour minute)
                (eventEndAt args now hour minute),
          success := true,
          notificationSent := (args.customer_email != "") && env.emailOk,
          emailAttempted := args.customer_email != "",
          submitted := some (submitBody args env now hour minute) }
      else
        { message := "Error creating calendar event: " ++ env.insertErr,
          success := false, notificationSent := false, emailAttempted := false,
          submitted := some (submitBody args env now hour minute) } := by
  have hrep := replaceHM_in_range (parse_relative_date args.date_description now).1
    hour minute h1 h2 h3 h4
  simp only [createCalendarEvent, hp, hrep, submitBody, eventStartAt, eventEndAt]

/-! ## Claims C4, C10, C8, C9, C5 -/

/-- Claim C4: a start_time that fails `map(int, start_time.split(":"))`
(non-numeric components or wrong arity, e.g. "9am") yields the terminal
failure message and halts before building the event: no calendar insert
and no email send. -/
theorem claim_C4 (args : BookingArgs) (env : BookingEnv) (now : PyDateTime)
    (hp : pyParseHM args.start_time = none) :
    (createCalendarEvent args env now).message =
      "Invalid time format: " ++ args.start_time ++
        ". Please use HH:MM format (e.g., \x2714:00\x27)" ∧
    (createCalendarEvent args env now).success = false ∧
    (createCalendarEvent args env now).submitted = none ∧
    (createCalendarEvent args env now).emailAttempted = false ∧
    (createCalendarEvent args env now).notificationSent = false := by
  simp [createCalendarEvent, hp, invalidOutcome, invalidTimeMsg]

def c4args : BookingArgs :=
  { title := "Tax consultation", date_description := "tomorrow",
    start_time := "9am", duration_minutes := 60, description := "",
    customer_email := "x@example.com" }

def c4env : BookingEnv :=
  { offsetSeconds := 7200, insertOk := true, insertErr := "", emailOk := true }

theorem claim_C4_witness :
    pyParseHM "9am" = none ∧
    (createCalendarEvent c4args c4env ⟨738886, 0⟩).message =
      "Invalid time format: " ++ "9am" ++
        ". Please use HH:MM format (e.g., \x2714:00\x27)" ∧
    (createCalendarEvent c4args c4env ⟨738886, 0⟩).submitted = none :=
  ⟨by decide, (claim_C4 c4args c4env ⟨738886, 0⟩ (by decide)).1,
    (claim_C4 c4args c4env ⟨738886, 0⟩ (by decide)).2.2.1⟩

/-- Claim C10: a start_time whose two fields are numeric but out of range
(hour outside 0..23 or minute outside 0..59, e.g. "25:00" or "12:75")
takes the same caught-ValueError path: the same "Invalid time format"
message is returned and no external calendar call is made. -/
theorem claim_C10 (args : BookingArgs) (env : BookingEnv) (now : PyDateTime)
    (hour minute : Int)
    (hp : pyParseHM args.start_time = some (hour, minute))
    (hr : hour < 0 ∨ 23 < hour ∨ minute < 0 ∨ 59 < minute) :
    (createCalendarEvent args env now).message =
      "Invalid time format: " ++ args.start_time ++
        ". Please use HH:MM format (e.g., \x2714:00\x27)" ∧
    (createCalendarEvent args env now).success = false ∧
    (createCalendarEvent args env now).submitted = none ∧
    (createCalendarEvent args env now).emailAttempted = false ∧
    (createCalendarEvent args env now).notificationSent = false := by
  have hole : ¬(0 ≤ hour ∧ hour ≤ 23 ∧ 0 ≤ minute ∧ minute ≤ 59) := by
    rcases hr with h | h | h | h <;> omega
  have hrep : replaceHM (parse_relative_date args.date_description now).1
      hour minute = none := by
    unfold replaceHM
    rw [if_neg hole]
  simp [createCalendarEvent, hp, hrep, invalidOutcome, invalidTimeMsg]

def c10args : BookingArgs :=
  { title := "Late", date_description := "today", start_time := "25:00",
    duration_minutes := 60, description := "", customer_email := "" }

def c10args2 : BookingArgs :=
  { title := "Late", date_description := "today", start_time := "12:75",
    duration_minutes := 60, description := "", customer_email := "" }

theorem claim_C10_witness :
    pyParseHM "25:00" = some (25, 0) ∧
    (createCalendarEvent c10args c4env ⟨738886, 0⟩).message =
      "Invalid time format: " ++ "25:00" ++
        ". Please use HH:MM format (e.g., \x2714:00\x27)" ∧
    (createCalendarEvent c10args c4env ⟨738886, 0⟩).submitted = none ∧
    pyParseHM "12:75" = some (12, 75) ∧
    (createCalendarEvent c10args2 c4env ⟨738886, 0⟩).submitted = none :=
  ⟨by decide,
    (claim_C10 c10args c4env ⟨738886, 0⟩ 25 0 (by decide)
      (Or.inr (Or.inl (by norm_num)))).1,
    (claim_C10 c10args c4env ⟨738886, 0⟩ 25 0 (by decide)
      (Or.inr (Or.inl (by norm_num)))).2.2.1,
    by decide,
    (claim_C10 c10args2 c4env ⟨738886, 0⟩ 12 75 (by decide)
      (Or.inr (Or.inr (Or.inr (by norm_num))))).2.2.1⟩

/-- Claim C8: no business-hour or weekday validation happens in the booking
component: whenever the start time parses as an in-range HH:MM - including
times outside 09:00-17:00 - and for every date_description - including
"saturday" and "sunday" - the event body is submitted to the external
store, never rejected. -/
theorem claim_C8 (args : BookingArgs) (env : BookingEnv) (now : PyDateTime)
    (hour minute : Int)
    (hp : pyParseHM args.start_time = some (hour, minute))
    (h1 : 0 ≤ hour) (h2 : hour ≤ 23) (h3 : 0 ≤ minute) (h4 : minute ≤ 59) :
    (createCalendarEvent args env now).submitted =
      some (submitBody args env now hour minute) := by
  rw [createCalendarEvent_submit args env now hour minute hp h1 h2 h3 h4]
  by_cases hik : env.insertOk <;> simp [hik]

def c8args : BookingArgs :=
  { title := "Weekend evening slot", date_description := "saturday",
    start_time := "18:30", duration_minutes := 60, description := "",
    customer_email := "" }

theorem claim_C8_witness :
    pyParseHM "18:30" = some (18, 30) ∧
    (createCalendarEvent c8args c4env ⟨738886, 0⟩).submitted =
      some (submitBody c8args c4env ⟨738886, 0⟩ 18 30) :=
  ⟨by decide,
    claim_C8 c8args c4env ⟨738886, 0⟩ 18 30 (by decide) (by decide)
      (by decide) (by decide) (by decide)⟩

lemma int_tdiv_3600 (n : Int) : n.tdiv 3600 = specTruncHours n := by
  unfold specTruncHours
  rcases n with n | n
  · simp [Int.tdiv, Int.sign]
    rcases n with _ | n
    · simp
    · simp [Int.sign]
  · simp [Int.tdiv, Int.sign]

lemma localTzStr_eq_spec (off : Int) : localTzStr off = specGmtLabel (specTruncHours off) := by
  have h : localTzStr off = specGmtLabel (off.tdiv 3600) := rfl
  rw [h, int_tdiv_3600]

/-- Claim C9: the timezone label sent to the external store (on both the
start and the end of the submitted body) is the fixed whole-hour offset
label with reversed sign: `Etc/GMT-h` for a truncated-toward-zero hour
count `h ≥ 0`, and `Etc/GMT+|h|` for `h < 0`; fractional hours are
truncated toward zero, not represented. -/
theorem claim_C9 (args : BookingArgs) (env : BookingEnv) (now : PyDateTime)
    (b : EventBody)
    (hb : (createCalendarEvent args env now).submitted = some b) :
    b.startTimeZone = specGmtLabel (specTruncHours env.offsetSeconds) ∧
    b.endTimeZone = specGmtLabel (specTruncHours env.offsetSeconds) := by
  rcases hps : pyParseHM args.start_time with _ | ⟨hour, minute⟩
  · rw [createCalendarEvent, hps] at hb
    simp [invalidOutcome] at hb
  · rcases hrep : replaceHM (parse_relative_date args.date_description now).1
        hour minute with _ | es
    · rw [createCalendarEvent, hps] at hb
      simp only [hrep] at hb
      simp [invalidOutcome] at hb
    · rw [createCalendarEvent, hps] at hb
      simp only [hrep] at hb
      by_cases hik : env.insertOk
      · simp only [hik, if_true] at hb
        obtain rfl : _ = b := Option.some.injEq _ _ ▸ hb
        exact ⟨(localTzStr_eq_spec env.offsetSeconds),
          (localTzStr_eq_spec env.offsetSeconds)⟩
      · simp only [hik, if_false] at hb
        obtain rfl : _ = b := Option.some.injEq _ _ ▸ hb
        exact ⟨(localTzStr_eq_spec env.offsetSeconds),
          (localTzStr_eq_spec env.offsetSeconds)⟩

def c9env : BookingEnv :=
  { offsetSeconds := -19800, insertOk := true, insertErr := "", emailOk := false }

def fallbackBody : EventBody :=
  { summary := "", description := "", startDateTime := "", startTimeZone := "",
    endDateTime := "", endTimeZone := "" }

theorem claim_C9_witness :
    (createCalendarEvent c8args c9env ⟨738886, 0⟩).submitted =
      some ((createCalendarEvent c8args c9env ⟨738886, 0⟩).submitted.getD fallbackBody) ∧
    ((createCalendarEvent c8args c9env ⟨738886, 0⟩).submitted.getD fallbackBody).startTimeZone =
      specGmtLabel (specTruncHours (-19800)) ∧
    specGmtLabel (specTruncHours (-19800)) = "Etc/GMT+5" :=
  ⟨by decide,
    (claim_C9 c8args c9env ⟨738886, 0⟩ _ (by decide)).1,
    by decide⟩

/-! ## Claim C5 -/

def c5args : BookingArgs :=
  { title := "Confirmation email sent", date_description := "today",
    start_time := "14:00", duration_minutes := 30, description := "",
    customer_email := "x@example.com" }

def c5env : BookingEnv :=
  { offsetSeconds := 7200, insertOk := true, insertErr := "", emailOk := false }

/-- Claim C5 as frozen is false on the code at one input: with the insert
succeeding and the email send raising, a title that itself contains the
words "Confirmation email sent" makes the returned message contain that
phrase even though no email was sent and no suffix was appended. -/
theorem claim_C5_counterexample :
    (createCalendarEvent c5args c5env ⟨738886, 36000000000⟩).success = true ∧
    (createCalendarEvent c5args c5env ⟨738886, 36000000000⟩).notificationSent = false ∧
    strContains (createCalendarEvent c5args c5env ⟨738886, 36000000000⟩).message
      "Confirmation email sent" = true := by decide

/-- Claim C5, amended: when the insert succeeds, the address is non-empty
and the email send raises, the booking still succeeds, the email_sent flag
stays false, and the returned message is exactly the base success message
with no confirmation suffix appended; had the send succeeded instead, the
same call would return the base message with the suffix
". Confirmation email sent to <address>" appended - so the suffix is
appended exactly when the send succeeded (and the message contains the
phrase iff the send succeeded, unless the title itself contains it). -/
theorem claim_C5_amended (args : BookingArgs) (env : BookingEnv)
    (now : PyDateTime) (hour minute : Int)
    (hp : pyParseHM args.start_time = some (hour, minute))
    (h1 : 0 ≤ hour) (h2 : hour ≤ 23) (h3 : 0 ≤ minute) (h4 : minute ≤ 59)
    (hins : env.insertOk = true)
    (hmail : args.customer_email ≠ "")
    (hfail : env.emailOk = false) :
    (createCalendarEvent args env now).success = true ∧
    (createCalendarEvent args env now).notificationSent = false ∧
    (createCalendarEvent args env now).message =
      successBase args.title (eventStartAt args now hour minute)
        (eventEndAt args now hour minute) ∧
    (createCalendarEvent args { env with emailOk := true } now).message =
      successBase args.title (eventStartAt args now hour minute)
        (eventEndAt args now hour minute) ++
      ". Confirmation email sent to " ++ args.customer_email := by
  have hbeq : (args.customer_email != "") = true := by
    rw [bne_iff_ne]
    exact hmail
  rw [createCalendarEvent_submit args env now hour minute hp h1 h2 h3 h4]
  rw [createCalendarEvent_submit args { env with emailOk := true } now
    hour minute hp h1 h2 h3 h4]
  simp [hins, hfail, hbeq]

def c5goodargs : BookingArgs :=
  { title := "Tax review with Jane", date_description := "friday",
    start_time := "14:00", duration_minutes := 30, description := "",
    customer_email := "x@example.com" }

theorem claim_C5_witness :
    (createCalendarEvent c5goodargs c5env ⟨738886, 36000000000⟩).success = true ∧
    (createCalendarEvent c5goodargs c5env ⟨738886, 36000000000⟩).notificationSent = false ∧
    (createCalendarEvent c5goodargs c5env ⟨738886, 36000000000⟩).message =
      successBase c5goodargs.title
        (eventStartAt c5goodargs ⟨738886, 36000000000⟩ 14 0)
        (eventEndAt c5goodargs ⟨738886, 36000000000⟩ 14 0) ∧
    (createCalendarEvent c5goodargs { c5env with emailOk := true }
        ⟨738886, 36000000000⟩).message =
      successBase c5goodargs.title
        (eventStartAt c5goodargs ⟨738886, 36000000000⟩ 14 0)
        (eventEndAt c5goodargs ⟨738886, 36000000000⟩ 14 0) ++
      ". Confirmation email sent to " ++ c5goodargs.customer_email :=
  claim_C5_amended c5goodargs c5env ⟨738886, 36000000000⟩ 14 0 (by decide)
    (by decide) (by decide) (by decide) (by decide) (by decide) (by decide)
    (by decide)

/-! ## Claim C7 -/

/-- Claim C7: on a successful listing, the returned entries are exactly the
raw entries carrying both a (truthy) start and end `dateTime`, in input
order, each rendered as its summary (default "Untitled Event") plus the
12-hour start and end time strings; every entry missing either field - in
particular every all-day entry, however many - is excluded. -/
theorem claim_C7 (locOffMinutes : Int) (l : List RawEvent)
    (out : List ShownEvent)
    (h : filterCalendarEvents locOffMinutes l = .ok out) :
    out = (l.filter keepEvent).map (renderKept locOffMinutes) := by
  induction l generalizing out with
  | nil =>
      simp only [filterCalendarEvents] at h
      injection h with h
      subst h
      rfl
  | cons e rest ih =>
      simp only [filterCalendarEvents] at h
      by_cases hk : keepEvent e
      · rw [if_pos hk] at h
        rcases hs : render12h locOffMinutes (e.startDT.getD "") with _ | st
        · rw [hs] at h
          cases h
        · rcases ht : render12h locOffMinutes (e.endDT.getD "") with _ | et
          · rw [hs, ht] at h
            cases h
          · rw [hs, ht] at h
            rcases hrest : filterCalendarEvents locOffMinutes rest with err | tl
            · rw [hrest] at h
              simp [Except.map] at h
            · rw [hrest] at h
              simp only [Except.map] at h
              injection h with h
              subst h
              have htl := ih tl hrest
              subst htl
              simp [List.filter_cons, hk, renderKept, hs, ht]
      · rw [if_neg hk] at h
        have := ih out h
        subst this
        simp [List.filter_cons, hk]

def c7list : List RawEvent :=
  [{ startDT := some "2025-03-04T14:30:00Z", endDT := some "2025-03-04T15:00:00Z",
     summary := some "Team sync" },
   { startDT := none, endDT := none, summary := some "All day holiday" },
   { startDT := some "2025-03-04T09:00:00+01:00",
     endDT := some "2025-03-04T10:30:00+01:00", summary := none },
   { startDT := none, endDT := some "2025-03-04T11:00:00Z",
     summary := some "Missing start" }]

def c7out : List ShownEvent :=
  [{ summary := "Team sync", start_time := "03:30 PM", end_time := "04:00 PM" },
   { summary := "Untitled Event", start_time := "09:00 AM", end_time := "10:30 AM" }]

theorem claim_C7_witness :
    filterCalendarEvents 60 c7list = .ok c7out ∧
    c7out = (c7list.filter keepEvent).map (renderKept 60) :=
  ⟨rfl, claim_C7 60 c7list c7out rfl⟩
